import Mathlib

/-!
Shallow embedding of the estimate pricing / save / conversion logic of the
AllSigns Field Service dashboard, together with the ticket-update error
mapping.  Numbers are modelled as rationals; the fallible backend calls are
modelled by an environment of success/failure flags and an explicit trace of
the operations issued.

Sources embedded here:
* `src/components/Estimates/EstimateDetailModal.tsx`
  (`calculateTotals`, `updateLineItem`, `removeLineItem`, `handleSave`,
   `handleConvertToTicket`, `handleConvertToProject`, conversion button gating)
* `src/components/Dispatch/TicketDetailModal.tsx` (`handleUpdate`)

The file is organised as definitions first, then the theorems.
-/

namespace AllSigns

/-- A line item of the in-memory editor list (type `LineItem` in the source). -/
structure LineItem where
  id : String
  line_order : Nat
  item_type : String
  description : String
  quantity : ℚ
  unit_price : ℚ
  line_total : ℚ
  part_id : Option String := none
  equipment_id : Option String := none
  labor_hours : Option ℚ := none
  labor_rate : Option ℚ := none
deriving DecidableEq

/-- Result record of `calculateTotals`. -/
structure Totals where
  subtotal : ℚ
  discount : ℚ
  taxAmount : ℚ
  total : ℚ
deriving DecidableEq

/-- JavaScript `Math.abs` on our rational model of JS numbers. -/
def mathAbs (q : ℚ) : ℚ := if q < 0 then -q else q

/-- `calculateTotals` from `EstimateDetailModal.tsx`: the two `reduce` passes
over the line items followed by the tax and total computation.  The component
reads the tax rate from `estimate?.tax_rate || 0`; here it is a parameter. -/
def calculateTotals (items : List LineItem) (taxRate : ℚ) : Totals :=
  let subtotal := items.foldl
    (fun sum item => if item.item_type != "discount" then sum + item.line_total else sum) 0
  let discount := items.foldl
    (fun sum item => if item.item_type == "discount" then sum + mathAbs item.line_total else sum) 0
  let taxAmount := (subtotal - discount) * (taxRate / 100)
  let total := subtotal - discount + taxAmount
  { subtotal := subtotal, discount := discount, taxAmount := taxAmount, total := total }

/-- The labor line item of the spec's worked example:
qty 2 at unit price 100, line total 200. -/
def exLabor : LineItem :=
  { id := "a", line_order := 0, item_type := "labor", description := "Labor",
    quantity := 2, unit_price := 100, line_total := 200 }

/-- The discount line item of the spec's worked example: line total −20. -/
def exDiscount : LineItem :=
  { id := "b", line_order := 1, item_type := "discount", description := "Discount",
    quantity := 1, unit_price := -20, line_total := -20 }

/-- A line item whose description is blank after trimming (used to exercise
the blank-description filter). -/
def exBlank : LineItem :=
  { id := "c", line_order := 0, item_type := "parts", description := "   ",
    quantity := 1, unit_price := 5, line_total := 5 }

/-- A line item whose description is empty but whose line total is non-zero
(used for the C2 counterexample). -/
def exBlankPriced : LineItem :=
  { id := "d", line_order := 0, item_type := "labor", description := "",
    quantity := 1, unit_price := 50, line_total := 50 }

/-- The property C1 asserts of `calculateTotals` for a given item list and
tax rate: each field matches its spec-side aggregation formula. -/
def TotalsSpec (items : List LineItem) (r : ℚ) : Prop :=
  (calculateTotals items r).subtotal
      = (((items.filter (fun i => i.item_type != "discount")).map (fun i => i.line_total)).sum)
  ∧ (calculateTotals items r).discount
      = (((items.filter (fun i => i.item_type == "discount")).map (fun i => |i.line_total|)).sum)
  ∧ (calculateTotals items r).taxAmount
      = ((calculateTotals items r).subtotal - (calculateTotals items r).discount) * (r / 100)
  ∧ (calculateTotals items r).total
      = (calculateTotals items r).subtotal - (calculateTotals items r).discount
          + (calculateTotals items r).taxAmount

/-- `removeLineItem` from `EstimateDetailModal.tsx`: filters the item out only
when more than one item is present. -/
def removeLineItem (items : List LineItem) (i : String) : List LineItem :=
  if items.length > 1 then items.filter (fun item => item.id != i) else items

/-- The property C6 asserts of `removeLineItem`: with more than one item it
filters out the item with the given id, with exactly one item it is a no-op,
and (for lists with pairwise-distinct ids) the length never drops below 1. -/
def RemoveSpec : Prop :=
  (∀ (items : List LineItem) (i : String), 1 < items.length →
      removeLineItem items i = items.filter (fun x => x.id != i))
  ∧ (∀ (items : List LineItem) (i : String), items.length = 1 →
      removeLineItem items i = items)
  ∧ (∀ (items : List LineItem) (i : String), (items.map LineItem.id).Nodup →
      1 ≤ items.length → 1 ≤ (removeLineItem items i).length)

/-- A field update passed to `updateLineItem(id, field, value)`; the component
invokes it with exactly these four fields. -/
inductive FieldUpdate where
  | item_type (v : String)
  | description (v : String)
  | quantity (v : ℚ)
  | unit_price (v : ℚ)

/-- The `{ ...item, [field]: value }` spread of `updateLineItem`. -/
def setField (item : LineItem) : FieldUpdate → LineItem
  | .item_type v => { item with item_type := v }
  | .description v => { item with description := v }
  | .quantity v => { item with quantity := v }
  | .unit_price v => { item with unit_price := v }

/-- Per-item body of `updateLineItem`: applies the field update to the item
with the matching id and recomputes `line_total` only for quantity or
unit-price updates. -/
def updOne (i : String) (f : FieldUpdate) (item : LineItem) : LineItem :=
  if item.id = i then
    let updated := setField item f
    match f with
    | .quantity _ => { updated with line_total := updated.quantity * updated.unit_price }
    | .unit_price _ => { updated with line_total := updated.quantity * updated.unit_price }
    | _ => updated
  else item

/-- `updateLineItem` from `EstimateDetailModal.tsx`: maps `updOne` over the
in-memory list. -/
def updateLineItem (items : List LineItem) (i : String) (f : FieldUpdate) : List LineItem :=
  items.map (updOne i f)

/-- The frame property C10 asserts of `updateLineItem`. -/
def UpdateFrameSpec : Prop :=
  (∀ (items : List LineItem) (i : String) (f : FieldUpdate),
      updateLineItem items i f = items.map (updOne i f))
  ∧ (∀ (i : String) (f : FieldUpdate) (item : LineItem),
      item.id ≠ i → updOne i f item = item)
  ∧ (∀ (i v : String) (item : LineItem),
      (updOne i (.item_type v) item).line_total = item.line_total)
  ∧ (∀ (i v : String) (item : LineItem),
      (updOne i (.description v) item).line_total = item.line_total)
  ∧ (∀ (i : String) (q : ℚ) (item : LineItem), item.id = i →
      updOne i (.quantity q) item = { item with quantity := q, line_total := q * item.unit_price })
  ∧ (∀ (i : String) (p : ℚ) (item : LineItem), item.id = i →
      updOne i (.unit_price p) item
        = { item with unit_price := p, line_total := item.quantity * p })
  ∧ (∀ (i v : String) (item : LineItem), item.id = i →
      updOne i (.item_type v) item = { item with item_type := v })
  ∧ (∀ (item : LineItem) (r : ℚ),
      (calculateTotals (updateLineItem [item] item.id (.item_type "discount")) r).discount
          = |item.line_total|
        ∧ (calculateTotals (updateLineItem [item] item.id (.item_type "discount")) r).subtotal
            = 0)

/-- An estimate row / the in-memory `estimate` state (type `EstimateDetail`
in the source, restricted to the fields the embedded handlers touch). -/
structure Estimate where
  id : String
  customer_id : String
  job_title : String
  job_description : String
  site_location : String
  status : String
  subtotal : ℚ
  tax_rate : ℚ
  tax_amount : ℚ
  total_amount : ℚ
  notes : String
  terms_conditions : String
  converted_to_ticket_id : Option String := none
  converted_to_project_id : Option String := none
  conversion_date : Option String := none
deriving DecidableEq

/-- JavaScript `x || null` on an optional string field. -/
def jsOrNull (o : Option String) : Option String :=
  match o with
  | some s => if s = "" then none else some s
  | none => none

/-- A row of the `lineItemsToInsert` array built by `handleSave`. -/
structure InsertRow where
  estimate_id : String
  line_order : Nat
  item_type : String
  description : String
  quantity : ℚ
  unit_price : ℚ
  line_total : ℚ
  part_id : Option String
  equipment_id : Option String
  labor_hours : Option ℚ
  labor_rate : Option ℚ
deriving DecidableEq

/-- The object literal of `handleSave`'s `.map((item, index) => ...)`. -/
def mkRow (estId : String) (idx : Nat) (item : LineItem) : InsertRow :=
  { estimate_id := estId
    line_order := idx
    item_type := item.item_type
    description := item.description
    quantity := item.quantity
    unit_price := item.unit_price
    line_total := item.line_total
    part_id := jsOrNull item.part_id
    equipment_id := jsOrNull item.equipment_id
    labor_hours := if item.item_type == "labor" then some item.quantity else none
    labor_rate := if item.item_type == "labor" then some item.unit_price else none }

/-- A whitespace character as JavaScript `String.prototype.trim` removes. -/
def jsWhitespace (c : Char) : Bool :=
  c == ' ' || c == '\t' || c == '\n' || c == '\r'

/-- JavaScript `.trim()`: strip whitespace from both ends of the string. -/
def jsTrim (s : String) : String :=
  String.mk (((s.toList.dropWhile jsWhitespace).reverse.dropWhile jsWhitespace).reverse)

/-- The filter `item.description && item.description.trim() !== ''`. -/
def blankFilter (item : LineItem) : Bool :=
  item.description != "" && jsTrim item.description != ""

/-- JavaScript `.map((item, index) => ...)` with a running index. -/
def mapIdxRows (estId : String) : Nat → List LineItem → List InsertRow
  | _, [] => []
  | n, item :: rest => mkRow estId n item :: mapIdxRows estId (n + 1) rest

/-- The `lineItemsToInsert` array of `handleSave`: blank-description items are
filtered out, the rest are renumbered from zero. -/
def lineItemsToInsert (estId : String) (items : List LineItem) : List InsertRow :=
  mapIdxRows estId 0 (items.filter blankFilter)

/-- The property C3 asserts of the rows inserted by `handleSave`: exactly the
items whose description is non-blank after trimming survive, in order, with
`line_order` renumbered from zero and labor hours/rate derived from
quantity/unit price only for labor items. -/
def InsertRowsSpec (estId : String) (items : List LineItem) : Prop :=
  (lineItemsToInsert estId items).length
      = (items.filter (fun i => jsTrim i.description != "")).length
  ∧ ∀ (k : Nat) (r : InsertRow) (j : LineItem),
      (lineItemsToInsert estId items)[k]? = some r →
      (items.filter (fun i => jsTrim i.description != ""))[k]? = some j →
        r.estimate_id = estId
        ∧ r.line_order = k
        ∧ r.item_type = j.item_type
        ∧ r.description = j.description
        ∧ r.quantity = j.quantity
        ∧ r.unit_price = j.unit_price
        ∧ r.line_total = j.line_total
        ∧ r.labor_hours = (if j.item_type = "labor" then some j.quantity else none)
        ∧ r.labor_rate = (if j.item_type = "labor" then some j.unit_price else none)

/-- The `estimates` table update issued by `handleSave`: header fields from
the in-memory estimate, totals from `calculateTotals`. -/
def applyHeaderUpdate (row : Estimate) (e : Estimate) (t : Totals) : Estimate :=
  { row with
    job_title := e.job_title
    job_description := e.job_description
    site_location := e.site_location
    tax_rate := e.tax_rate
    subtotal := t.subtotal
    tax_amount := t.taxAmount
    total_amount := t.total
    notes := e.notes
    terms_conditions := e.terms_conditions }

/-- An operation issued by `handleSave` against the backend. -/
inductive SaveOp where
  | updateEstimates
  | deleteLineItems
  | insertLineItems (n : Nat)
deriving DecidableEq

/-- The backend rows `handleSave` can touch: this estimate's header row and
its `estimate_line_items` rows. -/
structure SaveDb where
  estimateRow : Estimate
  itemRows : List InsertRow
deriving DecidableEq

/-- Which of the three backend calls of `handleSave` fail. -/
structure SaveEnv where
  updateFails : Bool
  deleteFails : Bool
  insertFails : Bool

/-- `handleSave` from `EstimateDetailModal.tsx`: update the header with the
freshly computed totals; on success delete all line items; on success insert
the filtered, renumbered rows (skipping the insert when none survive).  Each
`throw` lands in the `catch` block, which surfaces the failure; the result is
the backend state, the trace of issued operations, and the success flag. -/
def handleSave (env : SaveEnv) (db : SaveDb) (estimate : Estimate)
    (lineItems : List LineItem) : SaveDb × List SaveOp × Bool :=
  let totals := calculateTotals lineItems estimate.tax_rate
  if env.updateFails then (db, [.updateEstimates], false)
  else
    let db1 : SaveDb := { db with estimateRow := applyHeaderUpdate db.estimateRow estimate totals }
    if env.deleteFails then (db1, [.updateEstimates, .deleteLineItems], false)
    else
      let db2 : SaveDb := { db1 with itemRows := [] }
      let rows := lineItemsToInsert estimate.id lineItems
      if rows.length > 0 then
        if env.insertFails then
          (db2, [.updateEstimates, .deleteLineItems, .insertLineItems rows.length], false)
        else
          ({ db2 with itemRows := rows },
           [.updateEstimates, .deleteLineItems, .insertLineItems rows.length], true)
      else (db2, [.updateEstimates, .deleteLineItems], true)

/-- Projection of a stored `estimate_line_items` row back to a line item, as
`loadEstimateDetails` would hand it to `calculateTotals` (the database id is
irrelevant to the totals). -/
def rowToItem (r : InsertRow) : LineItem :=
  { id := ""
    line_order := r.line_order
    item_type := r.item_type
    description := r.description
    quantity := r.quantity
    unit_price := r.unit_price
    line_total := r.line_total
    part_id := r.part_id
    equipment_id := r.equipment_id
    labor_hours := r.labor_hours
    labor_rate := r.labor_rate }

/-- The environment in which every backend call of a handler succeeds. -/
def envOk : SaveEnv := { updateFails := false, deleteFails := false, insertFails := false }

/-- A concrete estimate used by witnesses and counterexamples: tax rate 0. -/
def exEstimate : Estimate :=
  { id := "est-1", customer_id := "cust-1", job_title := "Sign install",
    job_description := "Install storefront sign", site_location := "Main St",
    status := "draft", subtotal := 0, tax_rate := 0, tax_amount := 0,
    total_amount := 0, notes := "", terms_conditions := "" }

/-- A concrete backend state holding `exEstimate` and one stale row. -/
def exDb : SaveDb :=
  { estimateRow := exEstimate
    itemRows := [mkRow "est-1" 0 exLabor] }

/-- The property C4 asserts of `handleSave` when the header update fails:
the operation aborts, the line-item table is untouched and no delete or
insert is issued against it. -/
def HeaderFailureSpec (env : SaveEnv) (db : SaveDb) (estimate : Estimate)
    (lineItems : List LineItem) : Prop :=
  handleSave env db estimate lineItems = (db, [SaveOp.updateEstimates], false)
  ∧ (handleSave env db estimate lineItems).1.itemRows = db.itemRows
  ∧ SaveOp.deleteLineItems ∉ (handleSave env db estimate lineItems).2.1
  ∧ (∀ n, SaveOp.insertLineItems n ∉ (handleSave env db estimate lineItems).2.1)

/-- The property C5 asserts of `handleSave` when the header update succeeds
and the line-item delete fails: new header, stale line items, no insert
issued, failure surfaced. -/
def DeleteFailureSpec (env : SaveEnv) (db : SaveDb) (estimate : Estimate)
    (lineItems : List LineItem) : Prop :=
  handleSave env db estimate lineItems
      = ({ estimateRow := applyHeaderUpdate db.estimateRow estimate
              (calculateTotals lineItems estimate.tax_rate)
           itemRows := db.itemRows },
         [SaveOp.updateEstimates, SaveOp.deleteLineItems], false)
  ∧ (handleSave env db estimate lineItems).1.itemRows = db.itemRows
  ∧ (∀ n, SaveOp.insertLineItems n ∉ (handleSave env db estimate lineItems).2.1)
  ∧ (handleSave env db estimate lineItems).2.2 = false

/-- The property the amended C2 asserts on a fully successful save: the
persisted totals are `calculateTotals` of the full in-memory list, and they
are re-derivable from the persisted rows whenever every line item passes the
blank-description filter. -/
def SavedTotalsSpec (env : SaveEnv) (db : SaveDb) (estimate : Estimate)
    (lineItems : List LineItem) : Prop :=
  (handleSave env db estimate lineItems).1.estimateRow.subtotal
      = (calculateTotals lineItems estimate.tax_rate).subtotal
  ∧ (handleSave env db estimate lineItems).1.estimateRow.tax_amount
      = (calculateTotals lineItems estimate.tax_rate).taxAmount
  ∧ (handleSave env db estimate lineItems).1.estimateRow.total_amount
      = (calculateTotals lineItems estimate.tax_rate).total
  ∧ ((∀ j ∈ lineItems, (jsTrim j.description != "") = true) →
      calculateTotals (((handleSave env db estimate lineItems).1.itemRows).map rowToItem)
          estimate.tax_rate
        = calculateTotals lineItems estimate.tax_rate)

/-- The signed-in profile (`useAuth().profile`). -/
structure Profile where
  id : String
deriving DecidableEq

/-- The `tickets` row inserted by `handleConvertToTicket`. -/
structure TicketInsert where
  customer_id : String
  title : String
  description : String
  ticket_type : String
  status : String
  priority : String
  created_by : String
  assigned_to : String
deriving DecidableEq

/-- The object literal of the ticket insert in `handleConvertToTicket`. -/
def ticketInsertOf (e : Estimate) (p : Profile) : TicketInsert :=
  { customer_id := e.customer_id
    title := e.job_title
    description := if e.job_description = "" then "Converted from estimate" else e.job_description
    ticket_type := "SVC"
    status := "open"
    priority := "normal"
    created_by := p.id
    assigned_to := p.id }

/-- The `projects` row inserted by `handleConvertToProject`. -/
structure ProjectInsert where
  customer_id : String
  name : String
  description : String
  status : String
  budget_amount : ℚ
  project_manager_id : String
deriving DecidableEq

/-- The object literal of the project insert in `handleConvertToProject`
(`job_description || ''` is the identity on our string model). -/
def projectInsertOf (e : Estimate) (p : Profile) : ProjectInsert :=
  { customer_id := e.customer_id
    name := e.job_title
    description := e.job_description
    status := "planning"
    budget_amount := e.total_amount
    project_manager_id := p.id }

/-- Environment of a conversion attempt: the `confirm()` answer, which of the
two backend calls fail, the id the backend assigns to the new record, and the
`new Date().toISOString()` timestamp. -/
structure ConvEnv where
  confirmed : Bool
  insertFails : Bool
  updateFails : Bool
  newId : String
  now : String

/-- Result of `handleConvertToTicket`: the estimate row afterwards, the
tickets inserted, and whether the conversion completed. -/
structure TicketConvResult where
  estimate : Estimate
  insertedTickets : List TicketInsert
  success : Bool
deriving DecidableEq

/-- `handleConvertToTicket` from `EstimateDetailModal.tsx`: after the
`confirm()` prompt it inserts the ticket and then stamps the estimate as
converted; a failed insert leaves everything unchanged, a failed estimate
update leaves the inserted ticket without the back-reference. -/
def handleConvertToTicket (env : ConvEnv) (e : Estimate) (p : Profile) : TicketConvResult :=
  if !env.confirmed then { estimate := e, insertedTickets := [], success := false }
  else if env.insertFails then { estimate := e, insertedTickets := [], success := false }
  else if env.updateFails then
    { estimate := e, insertedTickets := [ticketInsertOf e p], success := false }
  else
    { estimate := { e with
        status := "converted"
        converted_to_ticket_id := some env.newId
        conversion_date := some env.now }
      insertedTickets := [ticketInsertOf e p]
      success := true }

/-- Result of `handleConvertToProject`. -/
structure ProjectConvResult where
  estimate : Estimate
  insertedProjects : List ProjectInsert
  success : Bool
deriving DecidableEq

/-- `handleConvertToProject` from `EstimateDetailModal.tsx`. -/
def handleConvertToProject (env : ConvEnv) (e : Estimate) (p : Profile) : ProjectConvResult :=
  if !env.confirmed then { estimate := e, insertedProjects := [], success := false }
  else if env.insertFails then { estimate := e, insertedProjects := [], success := false }
  else if env.updateFails then
    { estimate := e, insertedProjects := [projectInsertOf e p], success := false }
  else
    { estimate := { e with
        status := "converted"
        converted_to_project_id := some env.newId
        conversion_date := some env.now }
      insertedProjects := [projectInsertOf e p]
      success := true }

/-- The conversion-button gate of the modal (line 868): the buttons render
only for an accepted estimate bearing no conversion back-reference (JS
truthiness of the two id fields is modelled by `jsOrNull`). -/
def showConversionActions (e : Estimate) : Bool :=
  e.status == "accepted" && jsOrNull e.converted_to_ticket_id == none
    && jsOrNull e.converted_to_project_id == none

/-- An accepted, not-yet-converted estimate. -/
def exAccepted : Estimate :=
  { exEstimate with status := "accepted" }

/-- An accepted estimate that already bears a ticket back-reference. -/
def exConverted : Estimate :=
  { exEstimate with
    status := "accepted"
    converted_to_ticket_id := some "t1" }

/-- A concrete signed-in profile. -/
def exProfile : Profile := { id := "user-1" }

/-- A conversion environment where the user confirms and both calls succeed. -/
def envConvert : ConvEnv :=
  { confirmed := true, insertFails := false, updateFails := false,
    newId := "t-new", now := "2026-10-12T00:00:00Z" }

/-- The property the amended C8 asserts of a confirmed, fully successful
conversion: what each inserted record is seeded from and how the estimate is
stamped. -/
def ConversionSpec (env : ConvEnv) (e : Estimate) (p : Profile) : Prop :=
  (handleConvertToTicket env e p).insertedTickets = [ticketInsertOf e p]
  ∧ (ticketInsertOf e p).title = e.job_title
  ∧ (ticketInsertOf e p).customer_id = e.customer_id
  ∧ (ticketInsertOf e p).description
      = (if e.job_description = "" then "Converted from estimate" else e.job_description)
  ∧ (handleConvertToTicket env e p).estimate
      = { e with
          status := "converted"
          converted_to_ticket_id := some env.newId
          conversion_date := some env.now }
  ∧ (handleConvertToTicket env e p).success = true
  ∧ (handleConvertToProject env e p).insertedProjects = [projectInsertOf e p]
  ∧ (projectInsertOf e p).name = e.job_title
  ∧ (projectInsertOf e p).customer_id = e.customer_id
  ∧ (projectInsertOf e p).description = e.job_description
  ∧ (projectInsertOf e p).budget_amount = e.total_amount
  ∧ (handleConvertToProject env e p).estimate
      = { e with
          status := "converted"
          converted_to_project_id := some env.newId
          conversion_date := some env.now }
  ∧ (handleConvertToProject env e p).success = true

/-- `s.startsWith pat` on character lists. -/
def charsStart : List Char → List Char → Bool
  | _, [] => true
  | [], _ :: _ => false
  | c :: cs, d :: ds => c == d && charsStart cs ds

/-- Substring containment on character lists. -/
def charsContain : List Char → List Char → Bool
  | [], pat => charsStart [] pat
  | c :: cs, pat => charsStart (c :: cs) pat || charsContain cs pat

/-- JavaScript `String.prototype.includes`. -/
def strIncludes (s pat : String) : Bool := charsContain s.toList pat.toList

/-- A backend error as `handleUpdate` of `TicketDetailModal.tsx` sees it. -/
structure PgError where
  message : String
  code : String
deriving DecidableEq

/-- The user-facing permission message of `TicketDetailModal.tsx`. -/
def permissionMsg : String :=
  "You do not have permission to update this ticket. Please contact your administrator."

/-- The error-message mapping of `handleUpdate` in `TicketDetailModal.tsx`:
the `if (error.message) { ... }` chain over message substrings and error
codes, with the generic fallback when the message is empty. -/
def mapTicketUpdateError (e : PgError) : String :=
  if e.message = "" then "Failed to update ticket. Please try again."
  else if strIncludes e.message "permission denied" || strIncludes e.message "policy"
      || strIncludes e.message "Row level security" then
    permissionMsg
  else if strIncludes e.message "JSON object requested, multiple"
      || strIncludes e.message "0 rows" then
    permissionMsg
  else if strIncludes e.message "Cannot change status of billed ticket" then
    "Cannot change status of billed ticket. Invoice must be voided first."
  else if strIncludes e.message "Cannot mark non-billable ticket" then
    "Cannot mark non-billable ticket as ready to invoice."
  else if e.code = "23502" then
    "Missing required field. Please ensure all required fields are filled."
  else if e.code = "23503" then
    "Invalid reference. Please check that all linked records exist."
  else if e.code = "PGRST116" then permissionMsg
  else "Error: " ++ e.message

/-- An observable action of `handleUpdate` in `TicketDetailModal.tsx`. -/
inductive TicketOp where
  | updateTicket
  | alert (msg : String)
  | onUpdate
  | onClose
deriving DecidableEq

/-- `handleUpdate` from `TicketDetailModal.tsx` as its trace of observable
actions: one ticket update, then either a single blocking alert with the
mapped message (error case, no retry) or the success path `onUpdate();
onClose()`. -/
def handleUpdate (err : Option PgError) : List TicketOp :=
  match err with
  | some e => [.updateTicket, .alert (mapTicketUpdateError e)]
  | none => [.updateTicket, .onUpdate, .onClose]

/-- A concrete row-level-security backend error. -/
def exPgError : PgError :=
  { message := "new row violates row-level security policy", code := "42501" }

/-- The property C9 asserts of a permission-denied ticket update. -/
def PermissionErrorSpec (e : PgError) : Prop :=
  mapTicketUpdateError e = permissionMsg
  ∧ handleUpdate (some e) = [TicketOp.updateTicket, TicketOp.alert permissionMsg]
  ∧ TicketOp.onUpdate ∉ handleUpdate (some e)
  ∧ TicketOp.onClose ∉ handleUpdate (some e)
  ∧ (handleUpdate (some e)).count TicketOp.updateTicket = 1

end AllSigns

namespace AllSigns

theorem mathAbs_eq_abs (q : ℚ) : mathAbs q = |q| := by
  unfold mathAbs
  split
  · exact (abs_of_neg (by assumption)).symm
  · exact (abs_of_nonneg (by linarith [not_lt.mp (by assumption)])).symm

theorem foldl_add_if_eq_sum (p : LineItem → Bool) (g : LineItem → ℚ) :
    ∀ (items : List LineItem) (s : ℚ),
      items.foldl (fun sum item => if p item then sum + g item else sum) s
        = s + (((items.filter p).map g).sum) := by
  intro items
  induction items with
  | nil => intro s; simp
  | cons i rest ih =>
    intro s
    by_cases hp : p i
    · simp only [List.foldl_cons, List.filter_cons, hp, if_pos, List.map_cons, List.sum_cons]
      rw [ih (s + g i)]
      ring
    · simp only [List.foldl_cons, List.filter_cons, List.map_cons]
      rw [if_neg hp, ih s]
      simp [hp]

/-- C1: for every list of line items and every tax rate ≥ 0, `calculateTotals`
returns subtotal = Σ line_total over non-discount items, discount =
Σ |line_total| over discount items, taxAmount = (subtotal − discount) ·
taxRate/100 and total = subtotal − discount + taxAmount; on the worked example
[{labor, qty 2, price 100}, {discount, line_total −20}] with taxRate 10 it
yields subtotal 200, discount 20, taxAmount 18, total 198. -/
theorem calculateTotals_correct (items : List LineItem) (r : ℚ) (_hr : 0 ≤ r) :
    TotalsSpec items r
      ∧ calculateTotals [exLabor, exDiscount] 10
          = { subtotal := 200, discount := 20, taxAmount := 18, total := 198 } := by
  refine ⟨⟨?_, ?_, ?_, ?_⟩, ?_⟩
  · show (calculateTotals items r).subtotal = _
    unfold calculateTotals
    simpa using foldl_add_if_eq_sum (fun i => i.item_type != "discount") (fun i => i.line_total) items 0
  · show (calculateTotals items r).discount = _
    unfold calculateTotals
    have := foldl_add_if_eq_sum (fun i => i.item_type == "discount") (fun i => mathAbs i.line_total) items 0
    simp only [zero_add] at this ⊢
    rw [this]
    congr 1
    exact List.map_congr_left (fun i _ => mathAbs_eq_abs i.line_total)
  · rfl
  · rfl
  · show calculateTotals [exLabor, exDiscount] 10 = _
    have hne : ¬("labor" = "discount") := by decide
    simp only [calculateTotals, exLabor, exDiscount, mathAbs, List.foldl, if_neg hne]
    norm_num [hne]

/-- Witness for C1 at the worked example (tax rate 10 ≥ 0). -/
theorem calculateTotals_correct_witness :
    (0 : ℚ) ≤ 10
      ∧ (TotalsSpec [exLabor, exDiscount] 10
          ∧ calculateTotals [exLabor, exDiscount] 10
              = { subtotal := 200, discount := 20, taxAmount := 18, total := 198 }) :=
  ⟨by norm_num, calculateTotals_correct [exLabor, exDiscount] 10 (by norm_num)⟩

theorem filter_ne_of_not_mem (rest : List LineItem) (i : String)
    (h : i ∉ rest.map LineItem.id) : rest.filter (fun x => x.id != i) = rest := by
  induction rest with
  | nil => rfl
  | cons j t ih =>
    simp only [List.map_cons, List.mem_cons] at h
    push_neg at h
    have hji : (j.id != i) = true := by
      simp only [bne_iff_ne]
      exact fun e => h.1 e.symm
    simp only [List.filter_cons, hji, if_pos]
    rw [ih h.2]

/-- C6: `removeLineItem` removes the item with the given id when the list has
more than one item and is a no-op on a one-item list; for lists whose ids are
pairwise distinct the length never drops below 1. -/
theorem removeLineItem_correct : RemoveSpec := by
  refine ⟨?_, ?_, ?_⟩
  · intro items i h
    simp [removeLineItem, h]
  · intro items i h
    simp [removeLineItem, h]
  · intro items i hnd hlen
    by_cases hl : 1 < items.length
    · have hrw : removeLineItem items i = items.filter (fun x => x.id != i) := by
        simp [removeLineItem, hl]
      rw [hrw]
      match items, hl, hnd with
      | j :: t, hl, hnd =>
        by_cases hji : j.id = i
        · have hnotin : i ∉ t.map LineItem.id := by
            simp only [List.map_cons, List.nodup_cons] at hnd
            rw [← hji]
            exact hnd.1
          have hcond : ¬((j.id != i) = true) := by simp [bne_iff_ne, hji]
          rw [List.filter_cons, if_neg hcond, filter_ne_of_not_mem t i hnotin]
          simp only [List.length_cons] at hl
          omega
        · have hcond : (j.id != i) = true := by simp [bne_iff_ne, hji]
          rw [List.filter_cons, if_pos hcond]
          simp only [List.length_cons]
          omega
    · have hrw : removeLineItem items i = items := by
        simp [removeLineItem, hl]
      rw [hrw]
      exact hlen

/-- Witness for C6 at concrete lists. -/
theorem removeLineItem_correct_witness :
    removeLineItem [exLabor, exDiscount] "a"
        = List.filter (fun x => x.id != "a") [exLabor, exDiscount]
      ∧ removeLineItem [exDiscount] "a" = [exDiscount]
      ∧ 1 ≤ (removeLineItem [exLabor, exDiscount] "a").length :=
  ⟨removeLineItem_correct.1 [exLabor, exDiscount] "a" (by decide),
   removeLineItem_correct.2.1 [exDiscount] "a" (by decide),
   removeLineItem_correct.2.2 [exLabor, exDiscount] "a" (by decide) (by decide)⟩

/-- C10: `updateLineItem` recomputes `line_total` only for quantity or
unit-price updates; item-type and description updates keep `line_total`, items
with a different id are untouched, and retyping an item to "discount" moves
its retained `line_total` into the discount aggregate (as an absolute value)
and out of the subtotal. -/
theorem updateLineItem_frame : UpdateFrameSpec := by
  refine ⟨fun _ _ _ => rfl, ?_, ?_, ?_, ?_, ?_, ?_, ?_⟩
  · intro i f item h
    simp [updOne, h]
  · intro i v item
    by_cases h : item.id = i <;> simp [updOne, setField, h]
  · intro i v item
    by_cases h : item.id = i <;> simp [updOne, setField, h]
  · intro i q item h
    simp [updOne, setField, h]
  · intro i p item h
    simp [updOne, setField, h]
  · intro i v item h
    simp [updOne, setField, h]
  · intro item r
    simp [updateLineItem, updOne, setField, calculateTotals, mathAbs_eq_abs]

/-- Witness for C10 at a concrete item. -/
theorem updateLineItem_frame_witness :
    updOne "z" (.description "d") exLabor = exLabor
      ∧ (updOne "a" (.item_type "discount") exLabor).line_total = exLabor.line_total
      ∧ updOne "a" (.quantity 3) exLabor
          = { exLabor with quantity := 3, line_total := 3 * exLabor.unit_price } :=
  ⟨updateLineItem_frame.2.1 "z" (.description "d") exLabor (by decide),
   updateLineItem_frame.2.2.1 "a" "discount" exLabor,
   updateLineItem_frame.2.2.2.2.1 "a" 3 exLabor (by decide)⟩

theorem blankFilter_eq (item : LineItem) :
    blankFilter item = (jsTrim item.description != "") := by
  unfold blankFilter
  by_cases h : item.description = ""
  · rw [h]; decide
  · simp [h]

theorem mapIdxRows_length (estId : String) :
    ∀ (n : Nat) (l : List LineItem), (mapIdxRows estId n l).length = l.length := by
  intro n l
  induction l generalizing n with
  | nil => rfl
  | cons j t ih => simp [mapIdxRows, ih]

theorem mapIdxRows_getElem? (estId : String) :
    ∀ (l : List LineItem) (n k : Nat),
      (mapIdxRows estId n l)[k]? = (l[k]?).map (fun j => mkRow estId (n + k) j) := by
  intro l
  induction l with
  | nil => intro n k; rfl
  | cons j t ih =>
    intro n k
    cases k with
    | zero => simp [mapIdxRows]
    | succ m =>
      simp only [mapIdxRows, List.getElem?_cons_succ, ih (n + 1) m]
      rw [show n + 1 + m = n + (m + 1) from by omega]

/-- C3: the save operation inserts exactly the line items whose description is
non-empty after trimming, in their current order, renumbered sequentially from
zero, with labor_hours/labor_rate derived from quantity/unit_price for labor
items and null otherwise. -/
theorem lineItemsToInsert_correct (estId : String) (items : List LineItem) :
    InsertRowsSpec estId items := by
  have hfilter : items.filter blankFilter
      = items.filter (fun i => jsTrim i.description != "") :=
    List.filter_congr (fun i _ => blankFilter_eq i)
  constructor
  · rw [lineItemsToInsert, hfilter, mapIdxRows_length]
  · intro k r j hr hj
    rw [lineItemsToInsert, hfilter, mapIdxRows_getElem? estId _ 0 k, hj] at hr
    simp only [Option.map_some', Option.some.injEq] at hr
    subst hr
    simp [mkRow, Nat.zero_add]

/-- Witness for C3: a blank-description item is dropped, the remaining labor
item lands at index 0 with its labor fields derived. -/
theorem lineItemsToInsert_correct_witness :
    (lineItemsToInsert "e1" [exBlank, exLabor]).length
        = ([exBlank, exLabor].filter (fun i => jsTrim i.description != "")).length
      ∧ ((mkRow "e1" 0 exLabor).estimate_id = "e1"
        ∧ (mkRow "e1" 0 exLabor).line_order = 0
        ∧ (mkRow "e1" 0 exLabor).item_type = exLabor.item_type
        ∧ (mkRow "e1" 0 exLabor).description = exLabor.description
        ∧ (mkRow "e1" 0 exLabor).quantity = exLabor.quantity
        ∧ (mkRow "e1" 0 exLabor).unit_price = exLabor.unit_price
        ∧ (mkRow "e1" 0 exLabor).line_total = exLabor.line_total
        ∧ (mkRow "e1" 0 exLabor).labor_hours
            = (if exLabor.item_type = "labor" then some exLabor.quantity else none)
        ∧ (mkRow "e1" 0 exLabor).labor_rate
            = (if exLabor.item_type = "labor" then some exLabor.unit_price else none)) :=
  ⟨(lineItemsToInsert_correct "e1" [exBlank, exLabor]).1,
   (lineItemsToInsert_correct "e1" [exBlank, exLabor]).2 0 (mkRow "e1" 0 exLabor) exLabor
     rfl rfl⟩

/-- C4: if the estimate header update fails, `handleSave` aborts without
touching line items: no delete and no insert is issued against
`estimate_line_items`, which is left exactly as before. -/
theorem handleSave_header_abort (env : SaveEnv) (db : SaveDb) (estimate : Estimate)
    (lineItems : List LineItem) (h : env.updateFails = true) :
    HeaderFailureSpec env db estimate lineItems := by
  have hrw : handleSave env db estimate lineItems = (db, [SaveOp.updateEstimates], false) := by
    simp [handleSave, h]
  refine ⟨hrw, ?_, ?_, ?_⟩
  · rw [hrw]
  · rw [hrw]; simp
  · intro n; rw [hrw]; simp

/-- Witness for C4 at a concrete failing environment. -/
theorem handleSave_header_abort_witness :
    HeaderFailureSpec { updateFails := true, deleteFails := false, insertFails := false }
      exDb exEstimate [exLabor] :=
  handleSave_header_abort
    { updateFails := true, deleteFails := false, insertFails := false }
    exDb exEstimate [exLabor] rfl

/-- C5: if the line-item delete fails after a successful header update,
`handleSave` leaves the new header with the stale line items, attempts no
insert, performs no rollback, and surfaces the failure. -/
theorem handleSave_delete_stale (env : SaveEnv) (db : SaveDb) (estimate : Estimate)
    (lineItems : List LineItem) (hu : env.updateFails = false)
    (hd : env.deleteFails = true) :
    DeleteFailureSpec env db estimate lineItems := by
  have hrw : handleSave env db estimate lineItems
      = ({ estimateRow := applyHeaderUpdate db.estimateRow estimate
              (calculateTotals lineItems estimate.tax_rate)
           itemRows := db.itemRows },
         [SaveOp.updateEstimates, SaveOp.deleteLineItems], false) := by
    simp [handleSave, hu, hd]
  refine ⟨hrw, ?_, ?_, ?_⟩
  · rw [hrw]
  · intro n; rw [hrw]; simp
  · rw [hrw]

/-- Witness for C5 at a concrete failing environment. -/
theorem handleSave_delete_stale_witness :
    DeleteFailureSpec { updateFails := false, deleteFails := true, insertFails := false }
      exDb exEstimate [exLabor] :=
  handleSave_delete_stale
    { updateFails := false, deleteFails := true, insertFails := false }
    exDb exEstimate [exLabor] rfl rfl

theorem foldl_rowToItem (f : ℚ → LineItem → ℚ)
    (hf : ∀ (s : ℚ) (a b : LineItem), a.item_type = b.item_type →
      a.line_total = b.line_total → f s a = f s b) :
    ∀ (l : List LineItem) (eid : String) (n : Nat) (s : ℚ),
      ((mapIdxRows eid n l).map rowToItem).foldl f s = l.foldl f s := by
  intro l
  induction l with
  | nil => intro eid n s; rfl
  | cons j t ih =>
    intro eid n s
    simp only [mapIdxRows, List.map_cons, List.foldl_cons]
    rw [hf s (rowToItem (mkRow eid n j)) j rfl rfl]
    exact ih eid (n + 1) (f s j)

theorem calculateTotals_rows (eid : String) (items : List LineItem) (r : ℚ) :
    calculateTotals ((lineItemsToInsert eid items).map rowToItem) r
      = calculateTotals (items.filter blankFilter) r := by
  unfold calculateTotals lineItemsToInsert
  rw [foldl_rowToItem _ ?h1, foldl_rowToItem _ ?h2]
  case h1 =>
    intro s a b ht hl
    simp only [ht, hl]
  case h2 =>
    intro s a b ht hl
    simp only [ht, hl]

theorem handleSave_success (env : SaveEnv) (db : SaveDb) (estimate : Estimate)
    (lineItems : List LineItem) (hu : env.updateFails = false)
    (hd : env.deleteFails = false) (hi : env.insertFails = false) :
    (handleSave env db estimate lineItems).1
        = { estimateRow := applyHeaderUpdate db.estimateRow estimate
              (calculateTotals lineItems estimate.tax_rate)
            itemRows := lineItemsToInsert estimate.id lineItems }
      ∧ (handleSave env db estimate lineItems).2.2 = true := by
  by_cases hlen : (lineItemsToInsert estimate.id lineItems).length > 0
  · constructor <;> simp [handleSave, hu, hd, hi, hlen]
  · have hnil : lineItemsToInsert estimate.id lineItems = [] :=
      List.eq_nil_of_length_eq_zero (by omega)
    constructor <;> simp [handleSave, hu, hd, hi, hlen, hnil]

/-- C2 counterexample: saving an estimate (tax rate 0) whose only line item
has an empty description but line total 50 succeeds, stores subtotal 50, yet
the persisted line items are empty, so `calculateTotals` over them yields
subtotal 0: the stored totals are not re-derivable from the stored rows. -/
theorem handleSave_totals_not_rederivable :
    (handleSave envOk exDb exEstimate [exBlankPriced]).2.2 = true
      ∧ (handleSave envOk exDb exEstimate [exBlankPriced]).1.estimateRow.subtotal = 50
      ∧ (calculateTotals
            (((handleSave envOk exDb exEstimate [exBlankPriced]).1.itemRows).map rowToItem)
            exEstimate.tax_rate).subtotal = 0
      ∧ (handleSave envOk exDb exEstimate [exBlankPriced]).1.estimateRow.subtotal
          ≠ (calculateTotals
              (((handleSave envOk exDb exEstimate [exBlankPriced]).1.itemRows).map rowToItem)
              exEstimate.tax_rate).subtotal := by
  have hrows : lineItemsToInsert exEstimate.id [exBlankPriced] = [] := rfl
  have hsave : handleSave envOk exDb exEstimate [exBlankPriced]
      = ({ estimateRow := applyHeaderUpdate exDb.estimateRow exEstimate
              (calculateTotals [exBlankPriced] exEstimate.tax_rate)
           itemRows := [] },
         [SaveOp.updateEstimates, SaveOp.deleteLineItems], true) := by
    simp [handleSave, envOk, hrows]
  rw [hsave]
  refine ⟨rfl, ?_, ?_, ?_⟩
  · show (calculateTotals [exBlankPriced] exEstimate.tax_rate).subtotal = 50
    simp [calculateTotals, exBlankPriced]
  · rfl
  · show (calculateTotals [exBlankPriced] exEstimate.tax_rate).subtotal ≠ _
    simp [calculateTotals, exBlankPriced, exEstimate]

/-- C2 amended: on a fully successful save the persisted totals equal
`calculateTotals` of the full in-memory line-item list (computed before the
blank-description filter), and they are re-derivable from the persisted rows
whenever every line item has a non-blank description after trimming. -/
theorem handleSave_totals (env : SaveEnv) (db : SaveDb) (estimate : Estimate)
    (lineItems : List LineItem) (hu : env.updateFails = false)
    (hd : env.deleteFails = false) (hi : env.insertFails = false) :
    SavedTotalsSpec env db estimate lineItems := by
  obtain ⟨hdb, -⟩ := handleSave_success env db estimate lineItems hu hd hi
  refine ⟨by rw [hdb]; rfl, by rw [hdb]; rfl, by rw [hdb]; rfl, ?_⟩
  intro hall
  rw [hdb]
  show calculateTotals ((lineItemsToInsert estimate.id lineItems).map rowToItem) _ = _
  rw [calculateTotals_rows]
  congr 1
  refine List.filter_eq_self.mpr ?_
  intro j hj
  rw [blankFilter_eq]
  exact hall j hj

/-- Witness for the amended C2 at a concrete all-success save. -/
theorem handleSave_totals_witness :
    SavedTotalsSpec envOk exDb exEstimate [exLabor] :=
  handleSave_totals envOk exDb exEstimate [exLabor] rfl rfl rfl

/-- C7 (actual behavior, documenting the bug): invoked on an accepted
estimate that already bears `converted_to_ticket_id = some "t1"`, the handler
is not rejected — it inserts a new ticket, overwrites the back-reference and
the conversion date, and reports success; only the UI gate
`showConversionActions` hides the buttons for such an estimate. -/
theorem convertToTicket_unguarded :
    exConverted.converted_to_ticket_id = some "t1"
      ∧ exConverted.status = "accepted"
      ∧ (handleConvertToTicket envConvert exConverted exProfile).insertedTickets
          = [ticketInsertOf exConverted exProfile]
      ∧ (handleConvertToTicket envConvert exConverted exProfile).success = true
      ∧ (handleConvertToTicket envConvert exConverted exProfile).estimate.converted_to_ticket_id
          = some "t-new"
      ∧ (handleConvertToTicket envConvert exConverted exProfile).estimate.conversion_date
          = some "2026-10-12T00:00:00Z"
      ∧ (handleConvertToTicket envConvert exConverted exProfile).estimate.converted_to_ticket_id
          ≠ exConverted.converted_to_ticket_id
      ∧ showConversionActions exConverted = false :=
  ⟨rfl, rfl, rfl, rfl, rfl, rfl, by decide, rfl⟩

/-- C8 counterexample: the ticket insert of `handleConvertToTicket` does not
depend on the estimate's total — two estimates differing only in
`total_amount` yield identical ticket rows. -/
theorem convertToTicket_ignores_total :
    ticketInsertOf { exAccepted with total_amount := 100 } exProfile
        = ticketInsertOf { exAccepted with total_amount := 999 } exProfile
      ∧ ({ exAccepted with total_amount := 100 } : Estimate).total_amount
          ≠ ({ exAccepted with total_amount := 999 } : Estimate).total_amount := by
  refine ⟨rfl, ?_⟩
  show (100 : ℚ) ≠ 999
  norm_num

/-- C8 amended: a confirmed, fully successful `handleConvertToTicket` inserts
one ticket seeded from the estimate's customer, job title and job description
(defaulting to "Converted from estimate" when blank) — not from its total —
and `handleConvertToProject` inserts one project additionally seeded from the
total as its budget; each then stamps the estimate `converted` with the
back-reference to the new record and the conversion timestamp. -/
theorem conversion_seeds (env : ConvEnv) (e : Estimate) (p : Profile)
    (hc : env.confirmed = true) (hi : env.insertFails = false)
    (hu : env.updateFails = false) : ConversionSpec env e p := by
  refine ⟨?_, rfl, rfl, rfl, ?_, ?_, ?_, rfl, rfl, rfl, rfl, ?_, ?_⟩ <;>
    simp [handleConvertToTicket, handleConvertToProject, hc, hi, hu]

/-- Witness for the amended C8 at a concrete conversion. -/
theorem conversion_seeds_witness : ConversionSpec envConvert exAccepted exProfile :=
  conversion_seeds envConvert exAccepted exProfile rfl rfl rfl

/-- C9: when the backend error message contains "permission denied", "policy"
or "Row level security", `handleUpdate` maps it to the administrator message,
issues exactly one update attempt and one blocking alert, and does not invoke
the success path (`onUpdate` / `onClose`). -/
theorem handleUpdate_permission (e : PgError)
    (h : (strIncludes e.message "permission denied" || strIncludes e.message "policy"
        || strIncludes e.message "Row level security") = true) :
    PermissionErrorSpec e := by
  have hne : ¬(e.message = "") := by
    intro hm
    rw [hm] at h
    exact absurd h (by decide)
  have hmap : mapTicketUpdateError e = permissionMsg := by
    unfold mapTicketUpdateError
    rw [if_neg hne, if_pos h]
  have htrace : handleUpdate (some e)
      = [TicketOp.updateTicket, TicketOp.alert permissionMsg] := by
    simp [handleUpdate, hmap]
  refine ⟨hmap, htrace, ?_, ?_, ?_⟩ <;> rw [htrace] <;> decide

/-- Witness for C9 at a concrete row-level-security error. -/
theorem handleUpdate_permission_witness : PermissionErrorSpec exPgError :=
  handleUpdate_permission exPgError rfl

end AllSigns
